import Mathlib

/-!
Verification development for the supasvelte table store
(src/tableStore.ts).  The TypeScript source is shallowly embedded:

* JavaScript primitive values become the inductive type Value, with an
  explicit undefined variant (property access on a missing key yields
  undefined) and an explicit NaN variant (NaN is never strictly equal
  to itself).
* A database row (a plain JS object) becomes an association list from
  column name to Value; Row.get models property access, Row.has models
  the JS "in" operator, Row.eraseKey models the delete operator.
* The postgres change-feed handler of getRealtimePostgresChannel becomes
  applyChange; the broadcast handler of getRealtimeBroadcastChannel
  becomes broadcastApply; saveUnsavedEntries and closeConnections and
  mutate become the functions of the same names, with the remote store
  modelled by an update oracle and the emitted side effects collected in
  an explicit action trace.
-/

/-- JavaScript primitive values as they occur in table rows: strings,
numbers (the source only ever compares them, so integers suffice, with
NaN kept separate because strict equality on NaN is always false),
booleans, null and undefined. -/
inductive Value where
  | str : String → Value
  | num : Int → Value
  | nan : Value
  | bool : Bool → Value
  | null : Value
  | undef : Value
deriving DecidableEq, Repr

/-- JavaScript strict equality on primitive values: NaN is equal to
nothing, including itself; otherwise structural equality. -/
def jsEq (a b : Value) : Bool :=
  if a = Value.nan ∨ b = Value.nan then false else a = b

/-- JavaScript truthiness test, negated: the values for which the guard
if (!id) fires.  Falsy values are null, undefined, NaN, the number 0,
the empty string and false. -/
def falsy : Value → Bool
  | Value.null => true
  | Value.undef => true
  | Value.nan => true
  | Value.num n => n = 0
  | Value.str s => s = ""
  | Value.bool b => !b

/-- A table row: a JS object modelled as an association list from column
name to primitive value. -/
abbrev Row := List (String × Value)

/-- Property access obj[k]: the value stored under the first occurrence
of the key, or undefined when the key is absent. -/
def Row.get (r : Row) (k : String) : Value :=
  match r.find? (fun p => p.1 = k) with
  | some p => p.2
  | none => Value.undef

/-- The JS "in" operator: whether the key is present in the object
(a key can be present while holding the value undefined). -/
def Row.has (r : Row) (k : String) : Bool :=
  (r.find? (fun p => p.1 = k)).isSome

/-- The JS delete operator: removes the key from the object. -/
def Row.eraseKey (r : Row) (k : String) : Row :=
  r.filter (fun p => ¬ p.1 = k)

/-- Assignment obj[k] = v: overwrite the existing binding in place, or
append a new one. -/
def Row.put (r : Row) (k : String) (v : Value) : Row :=
  if r.any (fun p => p.1 = k) then
    r.map (fun p => if p.1 = k then (k, v) else p)
  else r ++ [(k, v)]

/-- A postgres change-feed event as delivered to the handler installed
by getRealtimePostgresChannel: the eventType string together with the
new and old partial row data. -/
structure ChangeEvent where
  eventType : String
  newRow : Row
  oldRow : Row
deriving DecidableEq, Repr

/-- The malformed-event test of the handler: the index key is present in
neither payload.new nor payload.old; when it holds the handler prints a
diagnostic with console.error (and then still runs the switch). -/
def malformedEvent (idx : String) (p : ChangeEvent) : Bool :=
  !(p.newRow.has idx) && !(p.oldRow.has idx)

/-- The switch of the change-feed handler, from getRealtimePostgresChannel:
INSERT appends payload.new to the store data; UPDATE maps over the data
replacing every item whose index value is strictly equal to
payload.new[indexName] by payload.new; DELETE filters out every item whose
index value is strictly equal to payload.old[indexName]; any other event
type leaves the data unchanged. -/
def applyChange (idx : String) (p : ChangeEvent) (data : List Row) : List Row :=
  if p.eventType = "INSERT" then
    data ++ [p.newRow]
  else if p.eventType = "UPDATE" then
    data.map (fun item => if jsEq (item.get idx) (p.newRow.get idx) then p.newRow else item)
  else if p.eventType = "DELETE" then
    data.filter (fun item => !(jsEq (item.get idx) (p.oldRow.get idx)))
  else data

/-- The full handler body: reports a diagnostic exactly when the event is
malformed, and in every case applies the switch to the data.  The first
component records whether console.error was called. -/
def applyChangeWithDiag (idx : String) (p : ChangeEvent) (data : List Row) :
    Bool × List Row :=
  (malformedEvent idx p, applyChange idx p data)

/-- Folding a sequence of change events over the snapshot, in delivery
order. -/
def applyChanges (idx : String) (evs : List ChangeEvent) (data : List Row) : List Row :=
  evs.foldl (fun d e => applyChange idx e d) data

/-- A row has a usable index value: the index key holds neither null nor
undefined. -/
def rowKeyOk (idx : String) (r : Row) : Bool :=
  !(r.get idx = Value.null) && !(r.get idx = Value.undef)

/-- No two values in the list coincide (boolean Nodup). -/
def keysNodup : List Value → Bool
  | [] => true
  | v :: vs => !(vs.contains v) && keysNodup vs

/-- The snapshot invariant of the spec: every row has a non-null (and
present) index value, and no two rows share the same index value. -/
def snapshotInv (idx : String) (data : List Row) : Bool :=
  data.all (rowKeyOk idx) && keysNodup (data.map (fun r => r.get idx))

/-- Side effects emitted towards the network by the store operations:
a remote update call supabase.update(payload).eq(indexName, key), or a
broadcastChannel.send of a mutate message carrying the given entry row. -/
inductive NetAct where
  | updateCall : Value → Row → NetAct
  | broadcastSend : Row → NetAct
deriving DecidableEq, Repr

/-- The mutable fields of the table store that the embedded operations
read and write: the snapshot rows, the pending unsavedIds list, the
lastMutate timestamp (milliseconds), the configured mutateInterval, and
whether a broadcast channel exists and what its connection state is. -/
structure StoreState where
  snapshot : List Row
  unsavedIds : List Value
  lastMutate : Option Nat
  mutateInterval : Option Nat
  hasBroadcast : Bool
  broadcastState : String
deriving DecidableEq, Repr

/-- Truthiness of tableStore.mutateInterval: undefined and the number 0
are falsy, every other number is truthy. -/
def truthyInterval : Option Nat → Bool
  | none => false
  | some w => !(w = 0)

/-- The entry object built by mutate for the broadcast message:
the object literal with the index key bound to id, spread with the
payload fields (later assignments overwrite). -/
def mkEntry (idx : String) (id : Value) (value : Row) : Row :=
  value.foldl (fun r p => r.put p.1 p.2) [(idx, id)]

/-- Property access on the broadcast message envelope as the receiving
handler sees it: the envelope object has the keys type, event and entry,
so looking up any other key (in particular a normal index name such as
id) yields undefined.  The entry key holds a nested object, which strict
equality never identifies with a stored primitive value or with
undefined, so it is handled separately in broadcastMatches. -/
def broadcastEnvelopeGet (tableName k : String) : Value :=
  if k = "type" then Value.str "broadcast"
  else if k = "event" then Value.str (tableName ++ "-mutate")
  else Value.undef

/-- The comparison item[indexName] === payload[indexName] performed by
the broadcast handler, where payload is the message envelope.  When the
index name is the key entry, the right-hand side is an object and the
comparison is false for every primitive or missing left-hand side. -/
def broadcastMatches (idx tableName : String) (item : Row) : Bool :=
  if idx = "entry" then false
  else jsEq (item.get idx) (broadcastEnvelopeGet tableName idx)

/-- The broadcast handler installed by getRealtimeBroadcastChannel: maps
over the store data replacing every item that matches the envelope
lookup by payload.entry.  The channel is configured with self true, so
the sending session also runs this handler on its own message. -/
def broadcastApply (idx tableName : String) (entry : Row) (data : List Row) : List Row :=
  data.map (fun item => if broadcastMatches idx tableName item then entry else item)

/-- Number of broadcastChannel.send calls executed by the retry loop of
mutate: attempts run at indices 0,1,... until a send returns ok or 10
attempts are exhausted; sendOk i tells whether attempt i is acknowledged. -/
def sendAttempts (sendOk : Nat → Bool) : Nat :=
  match (List.range 10).findIdx? (fun i => sendOk i) with
  | some i => i + 1
  | none => 10

/-- Deduplication worker: walks the list keeping the first occurrence of
each value, remembering the values already emitted. -/
def jsSetDedupAux (seen : List Value) : List Value → List Value
  | [] => []
  | v :: vs =>
    if seen.contains v then jsSetDedupAux seen vs
    else v :: jsSetDedupAux (v :: seen) vs

/-- Deduplication with first-occurrence order, as produced by the JS
expression spread of new Set(list). -/
def jsSetDedup (l : List Value) : List Value :=
  jsSetDedupAux [] l

/-- The for-of loop of saveUnsavedEntries over the deduplicated pending
ids: for each id, find the snapshot row whose index value is strictly
equal to it; when none exists continue without any call; otherwise issue
a remote update whose payload is the row with the index key deleted, and
record the id as saved when the update reports no error.  Returns the
saved ids and the issued calls, in loop order.  The remote store is the
oracle upd, returning the error of an update (none on success). -/
def flushLoop (upd : Value → Row → Option String) (idx : String)
    (snapshot : List Row) : List Value → List Value × List NetAct
  | [] => ([], [])
  | k :: rest =>
    match snapshot.find? (fun r => jsEq (r.get idx) k) with
    | none => flushLoop upd idx snapshot rest
    | some row =>
      let payload := row.eraseKey idx
      let out := flushLoop upd idx snapshot rest
      if (upd k payload).isNone then
        (k :: out.1, NetAct.updateCall k payload :: out.2)
      else
        (out.1, NetAct.updateCall k payload :: out.2)

/-- The saveUnsavedEntries function: when the pending list is nonempty it
is first replaced by its deduplication, the flush loop runs, and the ids
that were saved are removed from the pending list.  Returns the savedIds
result, the new pending list and the remote calls issued. -/
def saveUnsavedEntries (upd : Value → Row → Option String) (idx : String)
    (snapshot : List Row) (unsavedIds : List Value) :
    List Value × List Value × List NetAct :=
  if unsavedIds.isEmpty then ([], unsavedIds, [])
  else
    let d := jsSetDedup unsavedIds
    let out := flushLoop upd idx snapshot d
    (out.1, d.filter (fun k => !(out.1.contains k)), out.2)

/-- The payload the flush loop sends for a pending key: the snapshot row
found by strict-equality lookup on the index value, with the index key
deleted.  Used to state what saveUnsavedEntries does; defaults to the
empty row when no row is found (a case the flush loop skips). -/
def flushPayload (idx : String) (snapshot : List Row) (k : Value) : Row :=
  ((snapshot.find? (fun r => jsEq (r.get idx) k)).getD []).eraseKey idx

/-- Whether mutate is inside the coalescing window: lastMutate is set and
now minus lastMutate is strictly below the configured interval. -/
def withinWindow (now : Nat) (lastMutate : Option Nat) (interval : Option Nat) : Bool :=
  match lastMutate with
  | none => false
  | some t => (now : Int) - (t : Int) < ((interval.getD 0 : Nat) : Int)

/-- The mutate function of getTableStore.  It throws (Except.error) when
the id is falsy.  When a broadcast channel exists in the joined state,
the mutateInterval is truthy and the call falls within the coalescing
window, it sends the broadcast message with bounded retry, applies its
own message through the broadcast handler (self delivery), appends the
id to unsavedIds and resolves with null; otherwise it records now as
lastMutate when the coalescing configuration is active, runs
saveUnsavedEntries, skips the direct update when the id was just saved,
and otherwise issues the remote update with the given payload and
resolves with its error.  The result carries the resolved value, the new
store state and the trace of emitted network actions. -/
def mutate (upd : Value → Row → Option String) (sendOk : Nat → Bool)
    (idx tableName : String) (now : Nat) (s : StoreState)
    (id : Value) (value : Row) :
    Except String (Option String × StoreState × List NetAct) :=
  if falsy id then Except.error "No id provided"
  else
    let coalesceActive :=
      s.hasBroadcast && (s.broadcastState = "joined") && truthyInterval s.mutateInterval
    if coalesceActive && withinWindow now s.lastMutate s.mutateInterval then
      let entry := mkEntry idx id value
      Except.ok (none,
        { s with
          snapshot := broadcastApply idx tableName entry s.snapshot
          unsavedIds := s.unsavedIds ++ [id] },
        List.replicate (sendAttempts sendOk) (NetAct.broadcastSend entry))
    else
      let s1 := if coalesceActive then { s with lastMutate := some now } else s
      let out := saveUnsavedEntries upd idx s1.snapshot s1.unsavedIds
      let s2 := { s1 with unsavedIds := out.2.1 }
      if out.1.contains id then Except.ok (none, s2, out.2.2)
      else Except.ok (upd id value, s2, out.2.2 ++ [NetAct.updateCall id value])

/-- Teardown steps observable at the channel layer. -/
inductive TAct where
  | unsubPostgres : TAct
  | drain : TAct
  | unsubBroadcast : TAct
deriving DecidableEq, Repr

/-- The closeConnections function: always unsubscribe the postgres
channel; when a broadcast channel exists and its state is joined, run
saveUnsavedEntries to completion and only then unsubscribe the broadcast
channel (the then-continuation).  Returns the ordered teardown trace and
the pending list after teardown. -/
def closeConnections (upd : Value → Row → Option String) (idx : String)
    (s : StoreState) : List TAct × List Value :=
  if s.hasBroadcast && (s.broadcastState = "joined") then
    let out := saveUnsavedEntries upd idx s.snapshot s.unsavedIds
    ([TAct.unsubPostgres, TAct.drain, TAct.unsubBroadcast], out.2.1)
  else
    ([TAct.unsubPostgres], s.unsavedIds)

/-! Helper lemmas about the JS value model. -/

/-- Strict equality only succeeds on equal values. -/
theorem jsEq_eq_of_true {a b : Value} (h : jsEq a b = true) : a = b := by
  unfold jsEq at h
  split at h
  · simp at h
  · exact of_decide_eq_true h

/-- Strict equality of a defined value against undefined fails. -/
theorem jsEq_undef_right {v : Value} (h : ¬ v = Value.undef) : jsEq v Value.undef = false := by
  unfold jsEq
  split
  · rfl
  · exact decide_eq_false h

/-- Property access on a key the object does not have yields undefined. -/
theorem row_get_undef_of_not_has {r : Row} {k : String} (h : r.has k = false) :
    r.get k = Value.undef := by
  unfold Row.has at h
  unfold Row.get
  cases hf : r.find? (fun p => p.1 = k) with
  | none => rfl
  | some p => rw [hf] at h; simp at h

/-- The boolean duplicate-freeness test agrees with List.Nodup. -/
theorem keysNodup_iff (l : List Value) : keysNodup l = true ↔ l.Nodup := by
  induction l with
  | nil => simp [keysNodup]
  | cons v vs ih => simp [keysNodup, List.nodup_cons, ih, List.elem_iff]

/-! Claim theorems. -/

/-- C1 (code evaluation at the failing input): with a 10000 ms window, the
broadcast channel joined, and 500 ms elapsed since the last coalesced
write, mutate on key 1 with payload text b issues no remote update call,
records the key in unsavedIds and resolves with null, as the claim says;
but the caller's own Snapshot is left unchanged (the row keeps text a),
because the broadcast handler compares item[indexName] against
payload[indexName] on the message envelope, whose row data sits under the
entry key, so no row ever matches and the payload is never applied. -/
theorem c1_mutate_coalesced_eval :
    mutate (fun _ _ => none) (fun _ => true) "id" "messages" 500
        ⟨[[("id", Value.num 1), ("text", Value.str "a")]], [], some 0, some 10000, true, "joined"⟩
        (Value.num 1) [("text", Value.str "b")]
      = Except.ok (none,
          ⟨[[("id", Value.num 1), ("text", Value.str "a")]], [Value.num 1],
            some 0, some 10000, true, "joined"⟩,
          [NetAct.broadcastSend [("id", Value.num 1), ("text", Value.str "b")]]) := by
  rfl

/-- C3 counterexample: applying the same Insert event twice does not
yield the same Snapshot as applying it once; starting from the empty
snapshot the row is duplicated. -/
theorem c3_counterexample :
    applyChange "id" ⟨"INSERT", [("id", Value.num 1)], []⟩
        (applyChange "id" ⟨"INSERT", [("id", Value.num 1)], []⟩ [])
      ≠ applyChange "id" ⟨"INSERT", [("id", Value.num 1)], []⟩ [] := by
  decide

/-- C3 amended: the Insert branch of the change handler appends
payload.new unconditionally, so applying the same Insert event twice
appends the row twice instead of converging. -/
theorem c3_insert_twice_appends_twice (idx : String) (p : ChangeEvent)
    (h : p.eventType = "INSERT") (s : List Row) :
    applyChange idx p (applyChange idx p s) = s ++ [p.newRow, p.newRow] := by
  simp [applyChange, h]

/-- C3 amended, witness at a concrete input. -/
theorem c3_witness :
    applyChange "id" ⟨"INSERT", [("id", Value.num 1)], []⟩
        (applyChange "id" ⟨"INSERT", [("id", Value.num 1)], []⟩ [])
      = [] ++ [[("id", Value.num 1)], [("id", Value.num 1)]] :=
  c3_insert_twice_appends_twice "id" ⟨"INSERT", [("id", Value.num 1)], []⟩ rfl []

/-- C4 counterexample: an Update event whose new row carries index key 2,
applied to a snapshot holding only key 1, leaves the snapshot unchanged;
the new row is not inserted (no self-healing). -/
theorem c4_counterexample :
    applyChange "id" ⟨"UPDATE", [("id", Value.num 2), ("text", Value.str "x")], []⟩
        [[("id", Value.num 1)]] = [[("id", Value.num 1)]] ∧
    ¬ ([("id", Value.num 2), ("text", Value.str "x")] ∈
        applyChange "id" ⟨"UPDATE", [("id", Value.num 2), ("text", Value.str "x")], []⟩
          [[("id", Value.num 1)]]) := by
  decide

/-- C4 amended: the Update branch only maps over existing rows, so an
Update event whose new row matches no row in the snapshot is a no-op
rather than an insert. -/
theorem c4_update_unmatched_noop (idx : String) (p : ChangeEvent)
    (h : p.eventType = "UPDATE") (data : List Row)
    (hm : ∀ item ∈ data, jsEq (item.get idx) (p.newRow.get idx) = false) :
    applyChange idx p data = data := by
  simp only [applyChange, h]
  split
  · next hins => simp at hins
  · calc data.map (fun item =>
            if jsEq (item.get idx) (p.newRow.get idx) then p.newRow else item)
          = data.map (fun item => item) := by
            apply List.map_congr_left
            intro a ha
            simp [hm a ha]
      _ = data := List.map_id data

/-- C4 amended, witness at a concrete input. -/
theorem c4_witness :
    applyChange "id" ⟨"UPDATE", [("id", Value.num 2), ("text", Value.str "x")], []⟩
        [[("id", Value.num 1)]] = [[("id", Value.num 1)]] :=
  c4_update_unmatched_noop "id" ⟨"UPDATE", [("id", Value.num 2), ("text", Value.str "x")], []⟩
    rfl [[("id", Value.num 1)]] (by decide)

/-- C8: a mutate call with a null or empty-string key throws the
descriptive error No id provided before anything else happens; the
error result carries no new state and no network actions, so neither
the Snapshot nor the remote store is affected. -/
theorem c8_mutate_invalid_key (upd : Value → Row → Option String) (sendOk : Nat → Bool)
    (idx tableName : String) (now : Nat) (s : StoreState) (k : Value) (v : Row)
    (h : k = Value.null ∨ k = Value.str "") :
    mutate upd sendOk idx tableName now s k v = Except.error "No id provided" := by
  rcases h with h | h <;> subst h <;> rfl

/-- C8 witness at a concrete input. -/
theorem c8_witness :
    mutate (fun _ _ => none) (fun _ => true) "id" "messages" 0
        ⟨[], [], none, none, false, "closed"⟩ Value.null [("text", Value.str "b")]
      = Except.error "No id provided" :=
  c8_mutate_invalid_key _ _ _ _ _ _ _ _ (Or.inl rfl)

/-- C10: the guard if (not id) of mutate rejects every falsy key, not
only null and the empty string; in particular the number 0, booleans
false, NaN and undefined all throw the invalid-key error. -/
theorem c10_mutate_rejects_all_falsy (upd : Value → Row → Option String)
    (sendOk : Nat → Bool) (idx tableName : String) (now : Nat) (s : StoreState)
    (k : Value) (v : Row) (h : falsy k = true) :
    mutate upd sendOk idx tableName now s k v = Except.error "No id provided" := by
  unfold mutate
  rw [h]
  rfl

/-- C10 witness: the number 0, a legitimate index value, is rejected. -/
theorem c10_witness :
    falsy (Value.num 0) = true ∧
    mutate (fun _ _ => none) (fun _ => true) "id" "messages" 0
        ⟨[], [], none, none, false, "closed"⟩ (Value.num 0) [("text", Value.str "b")]
      = Except.error "No id provided" :=
  ⟨rfl, c10_mutate_rejects_all_falsy _ _ _ _ _ _ _ _ rfl⟩

/-- C7 counterexample: at teardown with a broadcast channel that exists
but is not in the joined state (here closed, for example after a
disconnect), closeConnections runs no drain at all, and a buffered edit
for key 1 stays pending forever, contradicting the claim that the drain
runs regardless of the broadcast channel's connection state. -/
theorem c7_counterexample :
    ¬ (TAct.drain ∈ (closeConnections (fun _ _ => none) "id"
        ⟨[[("id", Value.num 1), ("text", Value.str "b")]], [Value.num 1],
          some 0, some 10000, true, "closed"⟩).1) ∧
    (closeConnections (fun _ _ => none) "id"
        ⟨[[("id", Value.num 1), ("text", Value.str "b")]], [Value.num 1],
          some 0, some 10000, true, "closed"⟩).2 = [Value.num 1] := by
  decide

/-- C7 amended: when the broadcast channel exists and is in the joined
state at teardown, the drain runs to completion before the broadcast
channel is unsubscribed (the unsubscribe is the continuation of the
drain), and the pending set afterwards is exactly what the drain left
over; when the channel is absent or in any other state, no drain and no
broadcast unsubscribe happen. -/
theorem c7_teardown_drain_before_unsub (upd : Value → Row → Option String)
    (idx : String) (s : StoreState)
    (h : s.hasBroadcast = true ∧ s.broadcastState = "joined") :
    (closeConnections upd idx s).1 = [TAct.unsubPostgres, TAct.drain, TAct.unsubBroadcast] ∧
    (closeConnections upd idx s).2 =
      (saveUnsavedEntries upd idx s.snapshot s.unsavedIds).2.1 := by
  unfold closeConnections
  rw [h.1, h.2]
  exact ⟨rfl, rfl⟩

/-- C7 amended, witness at a concrete input. -/
theorem c7_witness :
    (closeConnections (fun _ _ => none) "id"
        ⟨[[("id", Value.num 1), ("text", Value.str "b")]], [Value.num 1],
          some 0, some 10000, true, "joined"⟩).1
      = [TAct.unsubPostgres, TAct.drain, TAct.unsubBroadcast] ∧
    (closeConnections (fun _ _ => none) "id"
        ⟨[[("id", Value.num 1), ("text", Value.str "b")]], [Value.num 1],
          some 0, some 10000, true, "joined"⟩).2
      = (saveUnsavedEntries (fun _ _ => none) "id"
          [[("id", Value.num 1), ("text", Value.str "b")]] [Value.num 1]).2.1 :=
  c7_teardown_drain_before_unsub _ _ _ ⟨rfl, rfl⟩

/-- The row chosen by the Update branch for an item keeps the item's
index value: either the item is kept, or it is replaced by payload.new,
whose index value strict-equality made equal to the item's. -/
theorem update_choice_key_eq (idx : String) (p : ChangeEvent) (item : Row) :
    (if jsEq (item.get idx) (p.newRow.get idx) then p.newRow else item).get idx
      = item.get idx := by
  split
  · next h => exact (jsEq_eq_of_true h).symm
  · rfl

/-- The Update branch of the change handler leaves the snapshot
invariant literally unchanged: the list of index values is preserved
row by row. -/
theorem snapshotInv_update (idx : String) (p : ChangeEvent)
    (h : p.eventType = "UPDATE") (data : List Row) :
    snapshotInv idx (applyChange idx p data) = snapshotInv idx data := by
  have hred : applyChange idx p data
      = data.map (fun item =>
          if jsEq (item.get idx) (p.newRow.get idx) then p.newRow else item) := by
    simp [applyChange, h]
  rw [hred]
  unfold snapshotInv
  congr 1
  · rw [List.all_map]
    have hfun : (rowKeyOk idx ∘ fun item =>
        if jsEq (item.get idx) (p.newRow.get idx) then p.newRow else item)
        = rowKeyOk idx := by
      funext item
      simp only [Function.comp_apply]
      unfold rowKeyOk
      rw [update_choice_key_eq]
    rw [hfun]
  · rw [List.map_map]
    have hfun : ((fun r => Row.get r idx) ∘ fun item =>
        if jsEq (item.get idx) (p.newRow.get idx) then p.newRow else item)
        = fun r => Row.get r idx := by
      funext item
      simp only [Function.comp_apply]
      exact update_choice_key_eq idx p item
    rw [hfun]

/-- The Delete branch of the change handler preserves the snapshot
invariant: filtering keeps a subsequence of the rows. -/
theorem snapshotInv_delete (idx : String) (p : ChangeEvent)
    (h : p.eventType = "DELETE") (data : List Row)
    (hinv : snapshotInv idx data = true) :
    snapshotInv idx (applyChange idx p data) = true := by
  have hred : applyChange idx p data
      = data.filter (fun item => !(jsEq (item.get idx) (p.oldRow.get idx))) := by
    simp [applyChange, h]
  rw [hred]
  unfold snapshotInv at hinv ⊢
  rw [Bool.and_eq_true] at hinv ⊢
  constructor
  · rw [List.all_eq_true]
    intro r hr
    exact List.all_eq_true.mp hinv.1 r (List.mem_of_mem_filter hr)
  · rw [keysNodup_iff]
    exact List.Nodup.sublist
      (List.Sublist.map (fun r => Row.get r idx) (List.filter_sublist data))
      ((keysNodup_iff _).mp hinv.2)

/-- Events with an unknown eventType fall through the switch and leave
the data unchanged. -/
theorem applyChange_other (idx : String) (p : ChangeEvent)
    (h1 : ¬ p.eventType = "INSERT") (h2 : ¬ p.eventType = "UPDATE")
    (h3 : ¬ p.eventType = "DELETE") (data : List Row) :
    applyChange idx p data = data := by
  simp [applyChange, h1, h2, h3]

/-- Any single non-Insert change event preserves the snapshot invariant. -/
theorem snapshotInv_step (idx : String) (p : ChangeEvent)
    (h : ¬ p.eventType = "INSERT") (data : List Row)
    (hinv : snapshotInv idx data = true) :
    snapshotInv idx (applyChange idx p data) = true := by
  by_cases h2 : p.eventType = "UPDATE"
  · rw [snapshotInv_update idx p h2 data]
    exact hinv
  · by_cases h3 : p.eventType = "DELETE"
    · exact snapshotInv_delete idx p h3 data hinv
    · rw [applyChange_other idx p h h2 h3 data]
      exact hinv

/-- C2 counterexample: from a snapshot satisfying the invariant, a single
Insert event for a key that is already present yields a snapshot with two
rows sharing the same index value, because the Insert branch appends
payload.new unconditionally instead of upserting. -/
theorem c2_counterexample :
    snapshotInv "id" [[("id", Value.num 1)]] = true ∧
    snapshotInv "id" (applyChange "id" ⟨"INSERT", [("id", Value.num 1)], []⟩
        [[("id", Value.num 1)]]) = false := by
  decide

/-- C2 amended: the invariant (every row has a present, non-null index
value, and index values are pairwise distinct) is preserved by every
sequence of Update and Delete change events; Insert events append
unconditionally and can violate it. -/
theorem c2_inv_preserved_update_delete (idx : String) (evs : List ChangeEvent) :
    ∀ data : List Row, (∀ e ∈ evs, ¬ e.eventType = "INSERT") →
      snapshotInv idx data = true →
      snapshotInv idx (applyChanges idx evs data) = true := by
  induction evs with
  | nil =>
    intro data _ hinv
    simpa [applyChanges] using hinv
  | cons e es ih =>
    intro data hev hinv
    have h1 : snapshotInv idx (applyChange idx e data) = true :=
      snapshotInv_step idx e (hev e (List.mem_cons_self e es)) data hinv
    have h2 := ih (applyChange idx e data)
      (fun x hx => hev x (List.mem_cons_of_mem e hx)) h1
    simpa [applyChanges] using h2

/-- C2 amended, witness at a concrete input: an Update followed by a
Delete applied to an invariant-satisfying snapshot keeps the invariant. -/
theorem c2_witness :
    snapshotInv "id" (applyChanges "id"
        [⟨"UPDATE", [("id", Value.num 1), ("text", Value.str "x")], []⟩,
         ⟨"DELETE", [], [("id", Value.num 2)]⟩]
        [[("id", Value.num 1)], [("id", Value.num 2)]]) = true :=
  c2_inv_preserved_update_delete "id"
    [⟨"UPDATE", [("id", Value.num 1), ("text", Value.str "x")], []⟩,
     ⟨"DELETE", [], [("id", Value.num 2)]⟩]
    [[("id", Value.num 1)], [("id", Value.num 2)]] (by decide) (by decide)

/-- C5 counterexample: an Insert event whose row data carries the index
key in neither new nor old is reported as malformed, yet the handler
still runs the switch, so the keyless row is appended and the Snapshot
does mutate. -/
theorem c5_counterexample :
    (applyChangeWithDiag "id" ⟨"INSERT", [("text", Value.str "a")], []⟩ []).1 = true ∧
    ¬ (applyChangeWithDiag "id" ⟨"INSERT", [("text", Value.str "a")], []⟩ []).2 = [] := by
  decide

/-- C5 amended: on an event whose index key is present in neither old nor
new row data the handler reports the diagnostic, but the event is not
dropped: a malformed Update or Delete leaves a snapshot satisfying the
invariant unchanged (no row can match an undefined index value), while a
malformed Insert still appends its keyless new row. -/
theorem c5_malformed_event_behavior (idx : String) (p : ChangeEvent) (data : List Row)
    (hm : malformedEvent idx p = true) :
    (applyChangeWithDiag idx p data).1 = true ∧
    (¬ p.eventType = "INSERT" → snapshotInv idx data = true →
      (applyChangeWithDiag idx p data).2 = data) ∧
    (p.eventType = "INSERT" → (applyChangeWithDiag idx p data).2 = data ++ [p.newRow]) := by
  have hm2 := hm
  unfold malformedEvent at hm2
  rw [Bool.and_eq_true] at hm2
  have hnew : p.newRow.get idx = Value.undef := by
    apply row_get_undef_of_not_has
    simpa using hm2.1
  have hold : p.oldRow.get idx = Value.undef := by
    apply row_get_undef_of_not_has
    simpa using hm2.2
  refine ⟨hm, ?_, ?_⟩
  · intro hni hinv
    show applyChange idx p data = data
    unfold snapshotInv at hinv
    rw [Bool.and_eq_true] at hinv
    have hkey : ∀ item ∈ data, ¬ item.get idx = Value.undef := by
      intro item hitem
      have hk := List.all_eq_true.mp hinv.1 item hitem
      unfold rowKeyOk at hk
      rw [Bool.and_eq_true] at hk
      simpa using hk.2
    by_cases h2 : p.eventType = "UPDATE"
    · have hred : applyChange idx p data
          = data.map (fun item =>
              if jsEq (item.get idx) (p.newRow.get idx) then p.newRow else item) := by
        simp [applyChange, h2]
      rw [hred]
      calc data.map (fun item =>
              if jsEq (item.get idx) (p.newRow.get idx) then p.newRow else item)
            = data.map (fun item => item) := by
              apply List.map_congr_left
              intro a ha
              rw [hnew, jsEq_undef_right (hkey a ha)]
              simp
        _ = data := List.map_id data
    · by_cases h3 : p.eventType = "DELETE"
      · have hred : applyChange idx p data
            = data.filter (fun item => !(jsEq (item.get idx) (p.oldRow.get idx))) := by
          simp [applyChange, h3]
        rw [hred]
        apply List.filter_eq_self.mpr
        intro a ha
        rw [hold, jsEq_undef_right (hkey a ha)]
        rfl
      · exact applyChange_other idx p hni h2 h3 data
  · intro hins
    show applyChange idx p data = data ++ [p.newRow]
    simp [applyChange, hins]

/-- C5 amended, witness at a concrete input: a malformed Update event on
an invariant-satisfying snapshot. -/
theorem c5_witness :
    (applyChangeWithDiag "id" ⟨"UPDATE", [("text", Value.str "z")], []⟩
        [[("id", Value.num 1)]]).1 = true ∧
    (¬ (ChangeEvent.eventType ⟨"UPDATE", [("text", Value.str "z")], []⟩) = "INSERT" →
      snapshotInv "id" [[("id", Value.num 1)]] = true →
      (applyChangeWithDiag "id" ⟨"UPDATE", [("text", Value.str "z")], []⟩
        [[("id", Value.num 1)]]).2 = [[("id", Value.num 1)]]) ∧
    ((ChangeEvent.eventType ⟨"UPDATE", [("text", Value.str "z")], []⟩) = "INSERT" →
      (applyChangeWithDiag "id" ⟨"UPDATE", [("text", Value.str "z")], []⟩
        [[("id", Value.num 1)]]).2
        = [[("id", Value.num 1)]] ++ [[("text", Value.str "z")]]) :=
  c5_malformed_event_behavior "id" ⟨"UPDATE", [("text", Value.str "z")], []⟩
    [[("id", Value.num 1)]] (by decide)

/-- The flush loop, on a pending list each of whose keys has a row in the
snapshot, saves exactly the keys whose update succeeds and issues exactly
one update call per key, whose payload is the found row with the index
key deleted. -/
theorem flushLoop_spec (upd : Value → Row → Option String) (idx : String)
    (snapshot : List Row) (l : List Value)
    (h : ∀ k ∈ l, (snapshot.find? (fun r => jsEq (r.get idx) k)).isSome = true) :
    flushLoop upd idx snapshot l =
      (l.filter (fun k => (upd k (flushPayload idx snapshot k)).isNone),
       l.map (fun k => NetAct.updateCall k (flushPayload idx snapshot k))) := by
  induction l with
  | nil => rfl
  | cons k rest ih =>
    have hk := h k (List.mem_cons_self k rest)
    obtain ⟨row, hrow⟩ := Option.isSome_iff_exists.mp hk
    have hpay : flushPayload idx snapshot k = row.eraseKey idx := by
      unfold flushPayload
      rw [hrow]
      rfl
    have ihh := ih (fun x hx => h x (List.mem_cons_of_mem k hx))
    unfold flushLoop
    rw [hrow, ihh]
    by_cases hu : (upd k (row.eraseKey idx)).isNone = true
    · simp [List.filter_cons, List.map_cons, hpay, hu]
    · simp only [Bool.not_eq_true] at hu
      simp [List.filter_cons, List.map_cons, hpay, hu]

/-- C6: with every deduplicated pending key present in the snapshot,
saveUnsavedEntries issues exactly one remote update per deduplicated
key, with payload the key's current snapshot row stripped of the index
key; the returned saved list is exactly the keys whose update succeeded,
and the new pending list is exactly the keys whose update failed. -/
theorem c6_flushAll_correct (upd : Value → Row → Option String) (idx : String)
    (snapshot : List Row) (ids : List Value)
    (h : ∀ k ∈ jsSetDedup ids,
      (snapshot.find? (fun r => jsEq (r.get idx) k)).isSome = true) :
    saveUnsavedEntries upd idx snapshot ids =
      ((jsSetDedup ids).filter (fun k => (upd k (flushPayload idx snapshot k)).isNone),
       (jsSetDedup ids).filter (fun k => !((upd k (flushPayload idx snapshot k)).isNone)),
       (jsSetDedup ids).map (fun k => NetAct.updateCall k (flushPayload idx snapshot k))) := by
  unfold saveUnsavedEntries
  by_cases he : ids.isEmpty = true
  · have hnil : ids = [] := List.isEmpty_iff.mp he
    subst hnil
    simp [jsSetDedup, jsSetDedupAux, flushLoop]
  · rw [if_neg (by simpa using he)]
    show ((flushLoop upd idx snapshot (jsSetDedup ids)).1,
        (jsSetDedup ids).filter
          (fun k => !((flushLoop upd idx snapshot (jsSetDedup ids)).1.contains k)),
        (flushLoop upd idx snapshot (jsSetDedup ids)).2) = _
    rw [flushLoop_spec upd idx snapshot _ h]
    refine congrArg₂ Prod.mk rfl (congrArg₂ Prod.mk ?_ rfl)
    apply List.filter_congr
    intro k hk
    by_cases hu : (upd k (flushPayload idx snapshot k)).isNone = true
    · simp [List.mem_filter, hu, hk]
    · simp only [Bool.not_eq_true] at hu
      simp [List.mem_filter, hu, hk]

/-- C6 witness at a concrete input: pending list with a duplicate, one
key whose update succeeds and one whose update fails. -/
theorem c6_witness :
    saveUnsavedEntries (fun k _ => if k = Value.num 1 then none else some "err") "id"
        [[("id", Value.num 1), ("t", Value.str "a")],
         [("id", Value.num 2), ("t", Value.str "b")]]
        [Value.num 2, Value.num 1, Value.num 2] =
      ((jsSetDedup [Value.num 2, Value.num 1, Value.num 2]).filter
        (fun k => ((fun k _ => if k = Value.num 1 then none else some "err") k
          (flushPayload "id"
            [[("id", Value.num 1), ("t", Value.str "a")],
             [("id", Value.num 2), ("t", Value.str "b")]] k) : Option String).isNone),
       (jsSetDedup [Value.num 2, Value.num 1, Value.num 2]).filter
        (fun k => !(((fun k _ => if k = Value.num 1 then none else some "err") k
          (flushPayload "id"
            [[("id", Value.num 1), ("t", Value.str "a")],
             [("id", Value.num 2), ("t", Value.str "b")]] k) : Option String).isNone)),
       (jsSetDedup [Value.num 2, Value.num 1, Value.num 2]).map
        (fun k => NetAct.updateCall k
          (flushPayload "id"
            [[("id", Value.num 1), ("t", Value.str "a")],
             [("id", Value.num 2), ("t", Value.str "b")]] k))) :=
  c6_flushAll_correct (fun k _ => if k = Value.num 1 then none else some "err") "id"
    [[("id", Value.num 1), ("t", Value.str "a")],
     [("id", Value.num 2), ("t", Value.str "b")]]
    [Value.num 2, Value.num 1, Value.num 2] (by decide)

/-- C9: on a store without a coalescing window (mutateInterval undefined)
and with an empty pending list (which is invariant for such a store,
since ids are only queued inside the coalescing branch, which requires a
truthy mutateInterval), a mutate call with a valid key resolves with the
result of exactly one remote update call carrying the given payload; the
trace holds no broadcast send, the snapshot is untouched and the pending
list stays empty. -/
theorem c9_mutate_no_window_writes_through (upd : Value → Row → Option String)
    (sendOk : Nat → Bool) (idx tableName : String) (now : Nat) (s : StoreState)
    (k : Value) (v : Row) (hk : falsy k = false) (hw : s.mutateInterval = none)
    (hu : s.unsavedIds = []) :
    mutate upd sendOk idx tableName now s k v
      = Except.ok (upd k v, s, [NetAct.updateCall k v]) := by
  obtain ⟨snap, uns, lm, mi, hb, bs⟩ := s
  simp only at hw hu
  subst hw
  subst hu
  simp [mutate, hk, truthyInterval, saveUnsavedEntries]

/-- C9 witness at a concrete input, with a failing remote store: the
error is propagated and still exactly one update call is issued. -/
theorem c9_witness :
    mutate (fun _ _ => some "remote-error") (fun _ => true) "id" "messages" 500
        ⟨[[("id", Value.num 1), ("text", Value.str "a")]], [], none, none, false, "closed"⟩
        (Value.num 1) [("text", Value.str "b")]
      = Except.ok (some "remote-error",
          ⟨[[("id", Value.num 1), ("text", Value.str "a")]], [], none, none, false, "closed"⟩,
          [NetAct.updateCall (Value.num 1) [("text", Value.str "b")]]) :=
  c9_mutate_no_window_writes_through _ _ _ _ _ _ _ _ rfl rfl rfl
